import Mathlib

/-!
Verification of the reflection helper of the fulfillment CLI
(`internal/reflection/reflection_helper.go`).

The Go code scans protobuf service descriptors for services matching a
Get/List/Create/Update/Delete shape convention, builds one `ObjectHelper`
per matching service, and dispatches generic CRUD operations over a gRPC
connection through protobuf reflection.

We embed the descriptor model, the message value model, the scanner and
the CRUD operations as executable Lean definitions, translated line by
line from the Go source, and prove the specified properties about them.
-/

namespace FulfillmentCli

/-! ### String primitives

Character-list implementations of the string operations the Go code uses:
`strings.ToLower`, the case folding of `strings.EqualFold`, Go's bytewise
string comparison and full-name splitting.  All names in scope are ASCII, on
which these coincide with the Go behaviour.
-/

/-- `strings.ToLower`. -/
def lowerString (s : String) : String :=
  String.mk (s.data.map Char.toLower)

/-- Split a character list at dots. -/
def splitDotChars : List Char → List (List Char)
  | [] => [[]]
  | c :: cs =>
    let rest := splitDotChars cs
    if c = '.' then [] :: rest
    else
      match rest with
      | [] => [[c]]
      | h :: t => (c :: h) :: t

/-- The dot-separated components of a full name. -/
def splitDot (s : String) : List String :=
  (splitDotChars s.data).map String.mk

/-- Go's bytewise `<` on strings, over characters. -/
def charsLt : List Char → List Char → Bool
  | [], [] => false
  | [], _ :: _ => true
  | _ :: _, [] => false
  | a :: as, b :: bs => if a < b then true else if b < a then false else charsLt as bs

/-- The complement order: `a` need not come strictly after `b`. -/
def strLe (a b : String) : Bool :=
  ! charsLt b.data a.data

/-- `strings.HasSuffix`. -/
def strEndsWith (s suf : String) : Bool :=
  suf.data.isSuffixOf s.data

/-- Protobuf field cardinality (`protoreflect.Cardinality`). -/
inductive Cardinality where
  | optionalC : Cardinality
  | requiredC : Cardinality
  | repeatedC : Cardinality
deriving DecidableEq, Repr

mutual

/-- Protobuf field kind (`protoreflect.Kind`), restricted to the kinds the
scanner inspects.  A message-kind field carries the descriptor of its message
type, mirroring `FieldDescriptor.Message()`. -/
inductive FieldKind where
  | stringK : FieldKind
  | int32K : FieldKind
  | boolK : FieldKind
  | otherK : FieldKind
  | messageK : MessageDescriptor → FieldKind

/-- `protoreflect.FieldDescriptor`: name, cardinality and kind. -/
inductive FieldDescriptor where
  | mk : String → Cardinality → FieldKind → FieldDescriptor

/-- `protoreflect.MessageDescriptor`: full name and field descriptors. -/
inductive MessageDescriptor where
  | mk : String → List FieldDescriptor → MessageDescriptor

end

def FieldDescriptor.name : FieldDescriptor → String
  | .mk n _ _ => n

def FieldDescriptor.cardinality : FieldDescriptor → Cardinality
  | .mk _ c _ => c

def FieldDescriptor.kind : FieldDescriptor → FieldKind
  | .mk _ _ k => k

def MessageDescriptor.fullName : MessageDescriptor → String
  | .mk n _ => n

def MessageDescriptor.fields : MessageDescriptor → List FieldDescriptor
  | .mk _ fs => fs

/-- `Fields().ByName(name)`: protobuf field names are unique within a message,
so the first match is the unique one. -/
def MessageDescriptor.fieldByName (m : MessageDescriptor) (n : String) :
    Option FieldDescriptor :=
  m.fields.find? (fun fd => fd.name == n)

/-- `FieldDescriptor.Message()`: the message descriptor of a message-kind
field, `none` for other kinds (Go returns a nil descriptor there). -/
def FieldDescriptor.message : FieldDescriptor → Option MessageDescriptor
  | .mk _ _ (.messageK m) => some m
  | _ => none

/-- `Name()` of a full name: the last dot-separated component. -/
def shortName (full : String) : String :=
  match (splitDot full).getLast? with
  | some s => s
  | none => full

/-- `FullName.Parent()`: everything before the last dot-separated component. -/
def parentName (full : String) : String :=
  String.intercalate "." ((splitDot full).dropLast)

/-- `protoreflect.MethodDescriptor`: name plus input and output message
descriptors. -/
structure MethodDescriptor where
  name : String
  input : MessageDescriptor
  output : MessageDescriptor

/-- `protoreflect.ServiceDescriptor`: full name and methods. -/
structure ServiceDescriptor where
  fullName : String
  methods : List MethodDescriptor

/-- `Methods().ByName(name)`: method names are unique within a service. -/
def ServiceDescriptor.methodByName (s : ServiceDescriptor) (n : String) :
    Option MethodDescriptor :=
  s.methods.find? (fun m => m.name == n)

/-- `protoreflect.FileDescriptor`, reduced to what `scanFile` reads: the
package name and the services declared in the file. -/
structure FileDescriptor where
  pkg : String
  services : List ServiceDescriptor

/-! ## Message values

`proto.Message` instances are modelled as immutable trees.  A message value
carries its type's full name and the list of its set fields; a field absent
from the list is unset.  `proto.Clone` is the identity on this value model:
the Go code clones templates precisely so that mutation of the fresh message
does not alias the stored template, and value semantics gives that for free.
-/

/-- A protobuf value: string, 32-bit integer, boolean, message or repeated
list (`protoreflect.Value`). -/
inductive PValue where
  | vStr : String → PValue
  | vInt : Int → PValue
  | vBool : Bool → PValue
  | vMsg : String → List (String × PValue) → PValue
  | vList : List PValue → PValue

/-- Type full name of a message value (junk on non-messages). -/
def PValue.typeName : PValue → String
  | .vMsg tn _ => tn
  | _ => ""

/-- Set fields of a message value (junk on non-messages). -/
def PValue.setFields : PValue → List (String × PValue)
  | .vMsg _ fs => fs
  | _ => []

/-- The default value of a field, as returned by `protoreflect` `Get` on an
unset field: empty list for repeated fields, zero scalar for scalars, and the
empty message of the field's type for message fields. -/
def FieldDescriptor.defaultValue (fd : FieldDescriptor) : PValue :=
  match fd.cardinality with
  | .repeatedC => .vList []
  | _ =>
    match fd.kind with
    | .stringK => .vStr ""
    | .int32K => .vInt 0
    | .boolK => .vBool false
    | .otherK => .vStr ""
    | .messageK m => .vMsg m.fullName []

/-- `message.ProtoReflect().Get(field)`: the set value, or the field's
default when unset. -/
def PValue.getField (m : PValue) (fd : FieldDescriptor) : PValue :=
  match m.setFields.lookup fd.name with
  | some v => v
  | none => fd.defaultValue

/-- Whether the field is among the set fields (`Has`). -/
def PValue.hasField (m : PValue) (fd : FieldDescriptor) : Bool :=
  (m.setFields.lookup fd.name).isSome

/-- `message.ProtoReflect().Set(field, v)`: replace or add the field. -/
def PValue.setField (m : PValue) (fd : FieldDescriptor) (v : PValue) : PValue :=
  .vMsg m.typeName ((fd.name, v) :: m.setFields.filter (fun p => p.1 ≠ fd.name))

/-- `Value.List()` followed by materialization: the elements of a repeated
value (`list.Get(i).Message().Interface()` keeps each element as a message). -/
def PValue.listElems : PValue → List PValue
  | .vList l => l
  | _ => []

/-- `Value.String()`: the string itself for string values, the formatted
form for other kinds (`protoreflect.Value` implements `fmt.Stringer`). -/
def PValue.asString : PValue → String
  | .vStr s => s
  | .vInt n => toString n
  | .vBool b => toString b
  | .vMsg tn _ => tn
  | .vList _ => ""

/-! ## Field shape rules (`Helper.getIdField` … `Helper.getTotalField`) -/

/-- `Helper.getIdField`: an `id` field that exists, has cardinality
`Optional` and kind `String`. -/
def Helper.getIdField (messageDesc : MessageDescriptor) : Option FieldDescriptor :=
  match messageDesc.fieldByName "id" with
  | none => none
  | some fieldDesc =>
    if fieldDesc.cardinality ≠ .optionalC then none
    else
      match fieldDesc.kind with
      | .stringK => some fieldDesc
      | _ => none

/-- `Helper.getObjectField`: an `object` field that exists, has cardinality
`Optional` and kind `Message`. -/
def Helper.getObjectField (messageDesc : MessageDescriptor) : Option FieldDescriptor :=
  match messageDesc.fieldByName "object" with
  | none => none
  | some fieldDesc =>
    if fieldDesc.cardinality ≠ .optionalC then none
    else
      match fieldDesc.kind with
      | .messageK _ => some fieldDesc
      | _ => none

/-- `Helper.getFilterField`: a `filter` field that exists, is not repeated
and has kind `String`. -/
def Helper.getFilterField (messageDesc : MessageDescriptor) : Option FieldDescriptor :=
  match messageDesc.fieldByName "filter" with
  | none => none
  | some fieldDesc =>
    if fieldDesc.cardinality = .repeatedC then none
    else
      match fieldDesc.kind with
      | .stringK => some fieldDesc
      | _ => none

/-- `Helper.getLimitField`: a `limit` field that exists, is not repeated and
has kind `Int32`. -/
def Helper.getLimitField (messageDesc : MessageDescriptor) : Option FieldDescriptor :=
  match messageDesc.fieldByName "limit" with
  | none => none
  | some fieldDesc =>
    if fieldDesc.cardinality = .repeatedC then none
    else
      match fieldDesc.kind with
      | .int32K => some fieldDesc
      | _ => none

/-- `Helper.getItemsField`: an `items` field that exists, is repeated and has
kind `Message`. -/
def Helper.getItemsField (messageDesc : MessageDescriptor) : Option FieldDescriptor :=
  match messageDesc.fieldByName "items" with
  | none => none
  | some fieldDesc =>
    if fieldDesc.cardinality ≠ .repeatedC then none
    else
      match fieldDesc.kind with
      | .messageK _ => some fieldDesc
      | _ => none

/-- `Helper.getTotalField`: a `total` field that exists, is not repeated and
has kind `Int32`. -/
def Helper.getTotalField (messageDesc : MessageDescriptor) : Option FieldDescriptor :=
  match messageDesc.fieldByName "total" with
  | none => none
  | some fieldDesc =>
    if fieldDesc.cardinality = .repeatedC then none
    else
      match fieldDesc.kind with
      | .int32K => some fieldDesc
      | _ => none

/-! ## Object helper records -/

/-- `methodInfo`: dispatch path plus request and response templates. -/
structure MethodInfo where
  path : String
  request : PValue
  response : PValue

/-- `getInfo`. -/
structure GetInfo extends MethodInfo where
  id : FieldDescriptor
  object : FieldDescriptor

/-- `listInfo`. -/
structure ListInfo extends MethodInfo where
  filter : FieldDescriptor
  limit : Option FieldDescriptor
  items : FieldDescriptor
  total : Option FieldDescriptor

/-- `createInfo` (the Go field `in` is named `inF`, `in` being reserved). -/
structure CreateInfo extends MethodInfo where
  inF : FieldDescriptor
  out : FieldDescriptor

/-- `updateInfo`. -/
structure UpdateInfo extends MethodInfo where
  inF : FieldDescriptor
  out : FieldDescriptor

/-- `deleteInfo`. -/
structure DeleteInfo extends MethodInfo where
  id : FieldDescriptor

/-- `ObjectHelper`: the per-managed-type record built by the scanner.  The Go
field `parent` holds the `Helper` whose gRPC connection the operations
invoke; the operations below receive that connection (`Transport`) as an
explicit argument instead. -/
structure ObjectHelper where
  descriptor : MessageDescriptor
  singular : String
  plural : String
  template : PValue
  list : ListInfo
  get : GetInfo
  create : CreateInfo
  update : UpdateInfo
  delete : DeleteInfo
  idField : Option FieldDescriptor
  metadataField : Option FieldDescriptor

/-! ## The scanner (`Helper.scanService`, `Helper.scan`) -/

/-- A Go runtime panic raised while scanning. -/
inductive ScanPanic where
  | nilDereference : ScanPanic
deriving DecidableEq, Repr

/-- `fieldDesc.Message() == objectDesc`: pointer identity of canonical
descriptors.  The global protobuf registry holds at most one descriptor per
full name, so identity coincides with full-name equality; a nil descriptor
(non-message field) is identical to no message descriptor. -/
def sameMessageType (fieldDesc : FieldDescriptor) (objectDesc : MessageDescriptor) : Bool :=
  match fieldDesc.message with
  | some m => m.fullName == objectDesc.fullName
  | none => false

/-- `Helper.makeMethodPath`: `"/<service full name>/<method name>"` (the
parent of a method's full name is its service's full name). -/
def Helper.makeMethodPath (serviceDesc : ServiceDescriptor) (methodDesc : MethodDescriptor) : String :=
  "/" ++ serviceDesc.fullName ++ "/" ++ methodDesc.name

/-- `Helper.makeTemplate`: a zero-valued message of the descriptor's type.
The Go code resolves the type in `protoregistry.GlobalTypes` and panics when
the lookup fails; `GlobalFiles` and `GlobalTypes` are populated together by
static linkage, so the lookup cannot fail for a scanned descriptor and the
function is modelled as total. -/
def Helper.makeTemplate (messageDesc : MessageDescriptor) : PValue :=
  .vMsg messageDesc.fullName []

/-- The `go-pluralize` client's `Plural`, modelled by the regular English
rules the library applies to the type names occurring in the scanned
packages: `y` after a consonant becomes `ies`, a sibilant ending takes `es`,
anything else takes `s`. -/
def pluralizeWord (s : String) : String :=
  if strEndsWith s "s" || strEndsWith s "x" || strEndsWith s "z"
      || strEndsWith s "ch" || strEndsWith s "sh" then
    s ++ "es"
  else if strEndsWith s "ay" || strEndsWith s "ey" || strEndsWith s "iy"
      || strEndsWith s "oy" || strEndsWith s "uy" then
    s ++ "s"
  else if strEndsWith s "y" then
    String.mk (s.data.dropLast) ++ "ies"
  else
    s ++ "s"

/-- `Helper.scanService`, translated check for check from the Go source.
`Except.error` models a Go runtime panic; `.ok none` a silently skipped
service; `.ok (some _)` a registered object helper.

The Go code checks every shape rule with an explicit nil guard except one:
the result of `getObjectField` on the get response is dereferenced
immediately (`getResponseObjectFieldDesc.Message()`), so a get response
violating the object-field rule panics instead of being skipped. -/
def Helper.scanService (serviceDesc : ServiceDescriptor) :
    Except ScanPanic (Option ObjectHelper) :=
  -- The service must have the get, list, create, update and delete methods:
  match serviceDesc.methodByName "List" with
  | none => .ok none
  | some listDesc =>
  match serviceDesc.methodByName "Get" with
  | none => .ok none
  | some getDesc =>
  match serviceDesc.methodByName "Create" with
  | none => .ok none
  | some createDesc =>
  match serviceDesc.methodByName "Update" with
  | none => .ok none
  | some updateDesc =>
  match serviceDesc.methodByName "Delete" with
  | none => .ok none
  | some deleteDesc =>
  -- The request of the get method must have an `id` field:
  match Helper.getIdField getDesc.input with
  | none => .ok none
  | some getRequestIdFieldDesc =>
  -- The response of the get method must have an `object` field.  No nil
  -- guard in the source: a violation dereferences a nil field descriptor.
  match Helper.getObjectField getDesc.output with
  | none => .error ScanPanic.nilDereference
  | some getResponseObjectFieldDesc =>
  match getResponseObjectFieldDesc.message with
  | none => .error ScanPanic.nilDereference -- unreachable: the field has message kind
  | some objectDesc =>
  -- The request of the list method must have a `filter` field:
  match Helper.getFilterField listDesc.input with
  | none => .ok none
  | some listRequestFilterFieldDesc =>
  -- The request of the list method may have a `limit` field:
  let listRequestLimitFieldDesc := Helper.getLimitField listDesc.input
  -- The response of the list method must have an `items` field of the
  -- managed type:
  match Helper.getItemsField listDesc.output with
  | none => .ok none
  | some listResponseItemsFieldDesc =>
  if ¬ sameMessageType listResponseItemsFieldDesc objectDesc then .ok none else
  -- The response of the list method may have a `total` field:
  let listResponseTotalFieldDesc := Helper.getTotalField listDesc.output
  -- The request and response of the `Create` method must have an `object`
  -- message field of the managed type:
  match Helper.getObjectField createDesc.input with
  | none => .ok none
  | some createRequestObjectFieldDesc =>
  if ¬ sameMessageType createRequestObjectFieldDesc objectDesc then .ok none else
  match Helper.getObjectField createDesc.output with
  | none => .ok none
  | some createResponseObjectFieldDesc =>
  if ¬ sameMessageType createResponseObjectFieldDesc objectDesc then .ok none else
  -- The request and response of the `Update` method must have an `object`
  -- message field of the managed type:
  match Helper.getObjectField updateDesc.input with
  | none => .ok none
  | some updateRequestObjectFieldDesc =>
  if ¬ sameMessageType updateRequestObjectFieldDesc objectDesc then .ok none else
  match Helper.getObjectField updateDesc.output with
  | none => .ok none
  | some updateResponseObjectFieldDesc =>
  if ¬ sameMessageType updateResponseObjectFieldDesc objectDesc then .ok none else
  -- The request of the `Delete` method must have an `id` string field:
  match Helper.getIdField deleteDesc.input with
  | none => .ok none
  | some deleteRequestIdFieldDesc =>
  -- Create the object template:
  let objectTemplate := Helper.makeTemplate objectDesc
  -- Calculate the singular and plural names:
  let objectName := shortName objectDesc.fullName
  let objectNameSingular := lowerString objectName
  let objectNamePlural := lowerString (pluralizeWord objectName)
  -- Get the descriptors of the fields of the object (recorded without any
  -- existence check):
  let idFieldDesc := objectDesc.fieldByName "id"
  let metadataFieldDesc := objectDesc.fieldByName "metadata"
  .ok (some {
    descriptor := objectDesc
    idField := idFieldDesc
    metadataField := metadataFieldDesc
    singular := objectNameSingular
    plural := objectNamePlural
    template := objectTemplate
    get := {
      path := Helper.makeMethodPath serviceDesc getDesc
      request := Helper.makeTemplate getDesc.input
      response := Helper.makeTemplate getDesc.output
      id := getRequestIdFieldDesc
      object := getResponseObjectFieldDesc }
    list := {
      path := Helper.makeMethodPath serviceDesc listDesc
      request := Helper.makeTemplate listDesc.input
      response := Helper.makeTemplate listDesc.output
      filter := listRequestFilterFieldDesc
      limit := listRequestLimitFieldDesc
      items := listResponseItemsFieldDesc
      total := listResponseTotalFieldDesc }
    create := {
      path := Helper.makeMethodPath serviceDesc createDesc
      request := Helper.makeTemplate createDesc.input
      response := Helper.makeTemplate createDesc.output
      inF := createRequestObjectFieldDesc
      out := createResponseObjectFieldDesc }
    update := {
      path := Helper.makeMethodPath serviceDesc updateDesc
      request := Helper.makeTemplate updateDesc.input
      response := Helper.makeTemplate updateDesc.output
      inF := updateRequestObjectFieldDesc
      out := updateResponseObjectFieldDesc }
    delete := {
      path := Helper.makeMethodPath serviceDesc deleteDesc
      request := Helper.makeTemplate deleteDesc.input
      response := Helper.makeTemplate deleteDesc.output
      id := deleteRequestIdFieldDesc } })

/-- Package orders as configured through `HelperBuilder.AddPackage`.  The
sort comparator reads `h.packages[pkg]`, a Go map access whose zero value for
a missing key is `0`. -/
def pkgOrder (packages : List (String × Int)) (pkg : String) : Int :=
  match packages.lookup pkg with
  | some order => order
  | none => 0

/-- `Helper.scanFile`: only files of enabled packages are scanned; the
scanned services append their helpers in file order. -/
def Helper.scanFile (packages : List (String × Int)) (fileDesc : FileDescriptor) :
    Except ScanPanic (List ObjectHelper) :=
  if (packages.lookup fileDesc.pkg).isNone then .ok []
  else
    match fileDesc.services.mapM Helper.scanService with
    | .error e => .error e
    | .ok results => .ok (results.filterMap id)

/-- The complement of the `sort.Slice` less-function of `Helper.scan`:
`helperLe packages a b` iff `a` need not come strictly after `b`, i.e.
smaller package order first and ties broken by full name. -/
def helperLe (packages : List (String × Int)) (a b : ObjectHelper) : Bool :=
  let orderA := pkgOrder packages (parentName a.descriptor.fullName)
  let orderB := pkgOrder packages (parentName b.descriptor.fullName)
  if orderA ≠ orderB then decide (orderA < orderB)
  else strLe a.descriptor.fullName b.descriptor.fullName

/-- `helperLe` as a relation, for the sorting library. -/
abbrev helperRel (packages : List (String × Int)) (a b : ObjectHelper) : Prop :=
  helperLe packages a b = true

/-- `Helper.scan`: scan every catalog file whose package is enabled, then
sort the helpers.  `sort.Slice` is unstable but its comparison key is total,
so every possible output agrees with a deterministic sort up to permutation
of key-equal helpers; the ordering properties proved below are invariant
under such permutations. -/
def Helper.scan (packages : List (String × Int)) (files : List FileDescriptor) :
    Except ScanPanic (List ObjectHelper) :=
  match files.mapM (Helper.scanFile packages) with
  | .error e => .error e
  | .ok fileResults => .ok (List.insertionSort (helperRel packages) (fileResults.flatten))

/-- `Helper.Names`: full names of the scanned helpers in registry order. -/
def Helper.Names (helpers : List ObjectHelper) : List String :=
  helpers.map (fun objectInfo => objectInfo.descriptor.fullName)

/-- `strings.EqualFold`, modelled as simple case folding; the aliases it is
applied to are ASCII lower-case names. -/
def eqFold (a b : String) : Bool :=
  lowerString a == lowerString b

/-- Whether a token matches one helper: exact full name, or case-insensitive
singular or plural alias — the three tests of the `Helper.Lookup` loop body
in source order. -/
def lookupMatches (objectType : String) (objectInfo : ObjectHelper) : Bool :=
  objectType == objectInfo.descriptor.fullName
    || eqFold objectType objectInfo.singular
    || eqFold objectType objectInfo.plural

/-- `Helper.Lookup`: the first helper, in registry order, matched by the
token; `none` when there is no such helper. -/
def Helper.Lookup (helpers : List ObjectHelper) (objectType : String) : Option ObjectHelper :=
  helpers.find? (lookupMatches objectType)

/-! ## CRUD operations (`ObjectHelper.Get` … `ObjectHelper.Delete`)

Each operation invokes `h.parent.connection.Invoke(ctx, path, request,
response)`.  The connection is modelled as a function from dispatch path and
request to either a transport error or the server's response message; on
error gRPC leaves the response out-parameter as the empty clone it was
handed.  The value returned by an operation is an `Option PValue` where
`none` models a nil `proto.Message` interface (a named Go result that was
never assigned).
-/

/-- gRPC status codes, reduced to the distinctions the claims need. -/
inductive StatusCode where
  | notFound : StatusCode
  | invalidArgument : StatusCode
  | internalErr : StatusCode
  | unavailable : StatusCode
deriving DecidableEq, Repr

/-- A transport (gRPC status) error. -/
structure TransportError where
  code : StatusCode
  msg : String
deriving DecidableEq, Repr

/-- The error universe seen by callers of the object helper: a transport
error surfaced unchanged, a wrap made by `fmt.Errorf("…: %w", err)`, or a
typed not-found error.  Modelled from the spec: no `NotFoundError` type is
declared anywhere in the repository; the `notFoundError` constructor renders
the spec's postulated type so the specified classification can be stated and
compared with what the code returns. -/
inductive CliError where
  | transport : TransportError → CliError
  | wrap : String → CliError → CliError
  | notFoundError : String → CliError
deriving DecidableEq, Repr

/-- Discriminator for the spec's typed not-found error. -/
def CliError.isNotFoundError : CliError → Bool
  | .notFoundError _ => true
  | _ => false

/-- The gRPC status code reachable from an error by unwrapping, the way
`status.Code(err)` sees through `%w` wraps; `none` for the spec's synthetic
error. -/
def CliError.statusCode : CliError → Option StatusCode
  | .transport e => some e.code
  | .wrap _ inner => inner.statusCode
  | .notFoundError _ => some .notFound

/-- The bound gRPC connection: `Invoke(path, request)` semantics. -/
def Transport : Type :=
  String → PValue → Except TransportError PValue

/-- One recorded RPC invocation. -/
structure Call where
  path : String
  request : PValue

/-- Observable outcome of one operation: the Go return values (`value`,
`error`), the helper state after the call, and the transcript of RPC
invocations performed.  The translated method bodies only ever read the
helper — every message they touch is a fresh clone — so they return the
helper they received. -/
structure OpOutcome (α : Type) where
  value : α
  error : Option CliError
  helperAfter : ObjectHelper
  calls : List Call

/-- `ObjectHelper.setId`: set a string value on the given field. -/
def ObjectHelper.setId (_h : ObjectHelper) (message : PValue)
    (field : FieldDescriptor) (value : String) : PValue :=
  message.setField field (.vStr value)

/-- `ObjectHelper.setObject`: set a message value on the given field. -/
def ObjectHelper.setObject (_h : ObjectHelper) (message : PValue)
    (field : FieldDescriptor) (value : PValue) : PValue :=
  message.setField field value

/-- `ObjectHelper.getObject`: `Get(field).Message().Interface()` — the set
sub-message, or the default empty message of the field's type when unset
(the `.Message()` coercion is the identity on every well-formed response). -/
def ObjectHelper.getObject (_h : ObjectHelper) (message : PValue)
    (field : FieldDescriptor) : PValue :=
  message.getField field

/-- `Value.Int()` as used on the `total` field: the integer for int values,
`0` for the unset default (responses are well-typed, so no other kind
occurs there). -/
def PValue.asInt : PValue → Int
  | .vInt n => n
  | _ => 0

/-- `ListOptions`; `Limit` is an `int32`. -/
structure ListOptions where
  Filter : String
  Limit : Int

/-- `ListResult`; `Total` is an `int32`. -/
structure ListResult where
  Items : List PValue
  Total : Int

/-- The request message `ObjectHelper.List` sends: a fresh clone of the
request template, with the filter set when the option is non-empty and the
limit set when the option is positive and the type has a limit field
(`options.Limit > 0 && h.list.limit != nil`). -/
def ObjectHelper.listRequest (h : ObjectHelper) (options : ListOptions) : PValue :=
  let request := h.list.request
  let request :=
    if options.Filter ≠ "" then request.setField h.list.filter (.vStr options.Filter)
    else request
  match h.list.limit with
  | some limitFd =>
    if options.Limit > 0 then request.setField limitFd (.vInt options.Limit)
    else request
  | none => request

/-- `ObjectHelper.List`, translated from the Go body: build the request,
invoke, then extract items and total from the response. -/
def ObjectHelper.List (h : ObjectHelper) (t : Transport) (options : ListOptions) :
    OpOutcome ListResult :=
  let request := h.listRequest options
  match t h.list.path request with
  | .error e =>
    { value := ⟨[], 0⟩, error := some (.transport e), helperAfter := h,
      calls := [⟨h.list.path, request⟩] }
  | .ok response =>
    let items := (response.getField h.list.items).listElems
    let total :=
      match h.list.total with
      | some totalFd => (response.getField totalFd).asInt
      | none => (items.length : Int)
    { value := ⟨items, total⟩, error := none, helperAfter := h,
      calls := [⟨h.list.path, request⟩] }

/-- `ObjectHelper.Get`: clone the request template, set the id, invoke; on
error return the transport error unchanged with a nil result, otherwise
extract the response's object field. -/
def ObjectHelper.Get (h : ObjectHelper) (t : Transport) (id : String) :
    OpOutcome (Option PValue) :=
  let request := h.setId h.get.request h.get.id id
  match t h.get.path request with
  | .error e =>
    { value := none, error := some (.transport e), helperAfter := h,
      calls := [⟨h.get.path, request⟩] }
  | .ok response =>
    { value := some (h.getObject response h.get.object), error := none,
      helperAfter := h, calls := [⟨h.get.path, request⟩] }

/-- `ObjectHelper.Create`: set the caller's object on a fresh request,
invoke; a transport error is wrapped with the create-specific message, and —
there being no early return — the result is still extracted from the
response clone. -/
def ObjectHelper.Create (h : ObjectHelper) (t : Transport) (object : PValue) :
    OpOutcome (Option PValue) :=
  let request := h.setObject h.create.request h.create.inF object
  let response := h.create.response
  match t h.create.path request with
  | .error e =>
    { value := some (h.getObject response h.create.out),
      error := some (.wrap "failed to create object" (.transport e)),
      helperAfter := h, calls := [⟨h.create.path, request⟩] }
  | .ok filled =>
    { value := some (h.getObject filled h.create.out), error := none,
      helperAfter := h, calls := [⟨h.create.path, request⟩] }

/-- `ObjectHelper.Update`: like `Create` with the update-specific wrap
message. -/
def ObjectHelper.Update (h : ObjectHelper) (t : Transport) (object : PValue) :
    OpOutcome (Option PValue) :=
  let request := h.setObject h.update.request h.update.inF object
  let response := h.update.response
  match t h.update.path request with
  | .error e =>
    { value := some (h.getObject response h.update.out),
      error := some (.wrap "failed to update object" (.transport e)),
      helperAfter := h, calls := [⟨h.update.path, request⟩] }
  | .ok filled =>
    { value := some (h.getObject filled h.update.out), error := none,
      helperAfter := h, calls := [⟨h.update.path, request⟩] }

/-- `ObjectHelper.Delete`: set the id on a fresh request, invoke, return the
`Invoke` error unchanged (the response is discarded). -/
def ObjectHelper.Delete (h : ObjectHelper) (t : Transport) (id : String) :
    OpOutcome Unit :=
  let request := h.setId h.delete.request h.delete.id id
  match t h.delete.path request with
  | .error e =>
    { value := (), error := some (.transport e), helperAfter := h,
      calls := [⟨h.delete.path, request⟩] }
  | .ok _ =>
    { value := (), error := none, helperAfter := h,
      calls := [⟨h.delete.path, request⟩] }

/-! ## Structural accessors (`GetId`, `GetName`, `GetMetadata`) -/

/-- A Go runtime panic raised by a structural accessor. -/
inductive AccessPanic where
  | nilField : AccessPanic
deriving DecidableEq, Repr

/-- `ObjectHelper.GetId`: `Get` on the recorded `id` field location.
`protoreflect` `Get` panics when handed the nil descriptor recorded for a
managed type without an `id` field. -/
def ObjectHelper.GetId (h : ObjectHelper) (object : PValue) :
    Except AccessPanic String :=
  match h.idField with
  | none => .error .nilField
  | some fd => .ok ((object.getField fd).asString)

/-- `ObjectHelper.GetMetadata`: `Get` on the recorded `metadata` field
location; panics on the nil descriptor recorded for a managed type without a
`metadata` field.  The Go method asserts the sub-message's type implements
the `Metadata` interface — an assertion that holds for the shared metadata
type every scanned package uses — and the model returns the sub-message. -/
def ObjectHelper.GetMetadata (h : ObjectHelper) (object : PValue) :
    Except AccessPanic PValue :=
  match h.metadataField with
  | none => .error .nilField
  | some fd => .ok (object.getField fd)

/-- `Metadata.GetName`.  Modelled from the spec: the `Metadata` interface is
declared in a repository file outside the sources at hand; per the spec the
metadata sub-object exposes a name, so its getter reads the `name` field of
the metadata message. -/
def metadataGetName (metadata : PValue) : String :=
  match metadata.setFields.lookup "name" with
  | some (.vStr s) => s
  | _ => ""

/-- `ObjectHelper.GetName` = `h.GetMetadata(object).GetName()`. -/
def ObjectHelper.GetName (h : ObjectHelper) (object : PValue) :
    Except AccessPanic String :=
  match h.GetMetadata object with
  | .error p => .error p
  | .ok metadata => .ok (metadataGetName metadata)

/-! ## Concrete schema fixtures

Concrete descriptors in the image of the real catalog: a managed type with
`id` and `metadata` in each of the two scanned packages, plus deliberately
malformed services exercising the individual shape rules.
-/

/-- An optional string field. -/
def strField (n : String) : FieldDescriptor := .mk n .optionalC .stringK

/-- An optional int32 field. -/
def int32Field (n : String) : FieldDescriptor := .mk n .optionalC .int32K

/-- An optional message field. -/
def msgField (n : String) (m : MessageDescriptor) : FieldDescriptor :=
  .mk n .optionalC (.messageK m)

/-- A repeated message field. -/
def repMsgField (n : String) (m : MessageDescriptor) : FieldDescriptor :=
  .mk n .repeatedC (.messageK m)

/-- The shared metadata message (name, deletion timestamp, …). -/
def metadataDesc : MessageDescriptor :=
  .mk "shared.v1.Metadata" [strField "name", strField "deletion_timestamp"]

/-- `fulfillment.v1.Cluster`: a managed type with `id` and `metadata`. -/
def clusterDesc : MessageDescriptor :=
  .mk "fulfillment.v1.Cluster" [strField "id", msgField "metadata" metadataDesc]

/-- `private.v1.Cluster`: the private mirror of the cluster type. -/
def privateClusterDesc : MessageDescriptor :=
  .mk "private.v1.Cluster" [strField "id", msgField "metadata" metadataDesc]

/-- A managed type without `id` or `metadata` fields. -/
def widgetDesc : MessageDescriptor :=
  .mk "fulfillment.v1.Widget" [strField "size"]

/-- A service following the five-method shape convention for the given
managed type, with request/response messages named after the given prefix. -/
def mkCrudService (svcName msgPre : String) (obj : MessageDescriptor) : ServiceDescriptor where
  fullName := svcName
  methods := [
    ⟨"Get", .mk (msgPre ++ "GetRequest") [strField "id"],
            .mk (msgPre ++ "GetResponse") [msgField "object" obj]⟩,
    ⟨"List", .mk (msgPre ++ "ListRequest") [strField "filter", int32Field "limit"],
             .mk (msgPre ++ "ListResponse") [repMsgField "items" obj, int32Field "total"]⟩,
    ⟨"Create", .mk (msgPre ++ "CreateRequest") [msgField "object" obj],
               .mk (msgPre ++ "CreateResponse") [msgField "object" obj]⟩,
    ⟨"Update", .mk (msgPre ++ "UpdateRequest") [msgField "object" obj],
               .mk (msgPre ++ "UpdateResponse") [msgField "object" obj]⟩,
    ⟨"Delete", .mk (msgPre ++ "DeleteRequest") [strField "id"],
               .mk (msgPre ++ "DeleteResponse") []⟩]

/-- The conforming cluster service. -/
def clustersService : ServiceDescriptor :=
  mkCrudService "fulfillment.v1.Clusters" "fulfillment.v1.Clusters" clusterDesc

/-- The conforming private cluster service. -/
def privateClustersService : ServiceDescriptor :=
  mkCrudService "private.v1.Clusters" "private.v1.Clusters" privateClusterDesc

/-- A conforming service whose managed type lacks `id` and `metadata`. -/
def widgetsService : ServiceDescriptor :=
  mkCrudService "fulfillment.v1.Widgets" "fulfillment.v1.Widgets" widgetDesc

/-- A service with four of the five methods: `Update` is missing. -/
def noUpdateService : ServiceDescriptor where
  fullName := "fulfillment.v1.Partials"
  methods :=
    (mkCrudService "fulfillment.v1.Partials" "fulfillment.v1.Partials" clusterDesc).methods.filter
      (fun m => m.name ≠ "Update")

/-- A service with all five methods and a valid get request `id`, whose get
response has no `object` field at all. -/
def gadgetsService : ServiceDescriptor where
  fullName := "fulfillment.v1.Gadgets"
  methods := [
    ⟨"Get", .mk "fulfillment.v1.GadgetsGetRequest" [strField "id"],
            .mk "fulfillment.v1.GadgetsGetResponse" [strField "payload"]⟩,
    ⟨"List", .mk "fulfillment.v1.GadgetsListRequest" [],
             .mk "fulfillment.v1.GadgetsListResponse" []⟩,
    ⟨"Create", .mk "fulfillment.v1.GadgetsCreateRequest" [],
               .mk "fulfillment.v1.GadgetsCreateResponse" []⟩,
    ⟨"Update", .mk "fulfillment.v1.GadgetsUpdateRequest" [],
               .mk "fulfillment.v1.GadgetsUpdateResponse" []⟩,
    ⟨"Delete", .mk "fulfillment.v1.GadgetsDeleteRequest" [strField "id"],
               .mk "fulfillment.v1.GadgetsDeleteResponse" []⟩]

/-- A service with all five methods and a valid get request `id`, whose get
response has an `object` field of the wrong (repeated) cardinality. -/
def sprocketsService : ServiceDescriptor where
  fullName := "private.v1.Sprockets"
  methods := [
    ⟨"Get", .mk "private.v1.SprocketsGetRequest" [strField "id"],
            .mk "private.v1.SprocketsGetResponse" [repMsgField "object" widgetDesc]⟩,
    ⟨"List", .mk "private.v1.SprocketsListRequest" [],
             .mk "private.v1.SprocketsListResponse" []⟩,
    ⟨"Create", .mk "private.v1.SprocketsCreateRequest" [],
               .mk "private.v1.SprocketsCreateResponse" []⟩,
    ⟨"Update", .mk "private.v1.SprocketsUpdateRequest" [],
               .mk "private.v1.SprocketsUpdateResponse" []⟩,
    ⟨"Delete", .mk "private.v1.SprocketsDeleteRequest" [strField "id"],
               .mk "private.v1.SprocketsDeleteResponse" []⟩]

/-- A service violating only the filter rule: the list request's `filter`
field has kind int32. -/
def badFilterService : ServiceDescriptor where
  fullName := "fulfillment.v1.BadFilters"
  methods := [
    ⟨"Get", .mk "fulfillment.v1.BadFiltersGetRequest" [strField "id"],
            .mk "fulfillment.v1.BadFiltersGetResponse" [msgField "object" clusterDesc]⟩,
    ⟨"List", .mk "fulfillment.v1.BadFiltersListRequest" [int32Field "filter"],
             .mk "fulfillment.v1.BadFiltersListResponse" [repMsgField "items" clusterDesc]⟩,
    ⟨"Create", .mk "fulfillment.v1.BadFiltersCreateRequest" [msgField "object" clusterDesc],
               .mk "fulfillment.v1.BadFiltersCreateResponse" [msgField "object" clusterDesc]⟩,
    ⟨"Update", .mk "fulfillment.v1.BadFiltersUpdateRequest" [msgField "object" clusterDesc],
               .mk "fulfillment.v1.BadFiltersUpdateResponse" [msgField "object" clusterDesc]⟩,
    ⟨"Delete", .mk "fulfillment.v1.BadFiltersDeleteRequest" [strField "id"],
               .mk "fulfillment.v1.BadFiltersDeleteResponse" []⟩]

/-- Fallback helper record, used only to make fixture extraction total. -/
def dummyHelper : ObjectHelper where
  descriptor := .mk "" []
  singular := ""
  plural := ""
  template := .vMsg "" []
  list := { path := "", request := .vMsg "" [], response := .vMsg "" [],
            filter := strField "filter", limit := none,
            items := repMsgField "items" (.mk "" []), total := none }
  get := { path := "", request := .vMsg "" [], response := .vMsg "" [],
           id := strField "id", object := msgField "object" (.mk "" []) }
  create := { path := "", request := .vMsg "" [], response := .vMsg "" [],
              inF := msgField "object" (.mk "" []), out := msgField "object" (.mk "" []) }
  update := { path := "", request := .vMsg "" [], response := .vMsg "" [],
              inF := msgField "object" (.mk "" []), out := msgField "object" (.mk "" []) }
  delete := { path := "", request := .vMsg "" [], response := .vMsg "" [],
              id := strField "id" }
  idField := none
  metadataField := none

/-- The helper the scanner builds for the cluster service. -/
def clusterHelper : ObjectHelper :=
  match Helper.scanService clustersService with
  | .ok (some h) => h
  | _ => dummyHelper

/-- The helper the scanner builds for the private cluster service. -/
def privateClusterHelper : ObjectHelper :=
  match Helper.scanService privateClustersService with
  | .ok (some h) => h
  | _ => dummyHelper

/-- The helper the scanner builds for the widget service. -/
def widgetHelper : ObjectHelper :=
  match Helper.scanService widgetsService with
  | .ok (some h) => h
  | _ => dummyHelper

/-- Package orders as in the CLI: private types listed first. -/
def demoPackages : List (String × Int) := [("private.v1", 0), ("fulfillment.v1", 1)]

/-- A catalog with the cluster services of both packages. -/
def demoFiles : List FileDescriptor :=
  [⟨"fulfillment.v1", [clustersService]⟩, ⟨"private.v1", [privateClustersService]⟩]

/-- The registry obtained by scanning both packages of the demo catalog. -/
def demoRegistry : List ObjectHelper :=
  match Helper.scan demoPackages demoFiles with
  | .ok helpers => helpers
  | .error _ => []

/-- The registry obtained when only `fulfillment.v1` is enabled. -/
def fulfillmentRegistry : List ObjectHelper :=
  match Helper.scan [("fulfillment.v1", 1)] demoFiles with
  | .ok helpers => helpers
  | .error _ => []

/-- A concrete cluster instance. -/
def clusterA : PValue :=
  .vMsg "fulfillment.v1.Cluster"
    [("id", .vStr "a"), ("metadata", .vMsg "shared.v1.Metadata" [("name", .vStr "alpha")])]

/-- A second concrete cluster instance. -/
def clusterB : PValue :=
  .vMsg "fulfillment.v1.Cluster"
    [("id", .vStr "b"), ("metadata", .vMsg "shared.v1.Metadata" [("name", .vStr "beta")])]

/-- A concrete widget instance. -/
def someWidget : PValue := .vMsg "fulfillment.v1.Widget" [("size", .vStr "L")]

/-- A transport double failing every call with a NotFound status. -/
def notFoundTransport : Transport :=
  fun _ _ => .error ⟨.notFound, "object not found"⟩

/-- A transport double failing every call with an Unavailable status. -/
def unavailableTransport : Transport :=
  fun _ _ => .error ⟨.unavailable, "connection refused"⟩

/-- The list response the cluster list transport double returns. -/
def clusterListResponse : PValue :=
  .vMsg "fulfillment.v1.ClustersListResponse"
    [("items", .vList [clusterA, clusterB]), ("total", .vInt 2)]

/-- A transport double answering every call with `items=[A,B], total=2`. -/
def clusterListTransport : Transport := fun _ _ => .ok clusterListResponse

/-- The response the cluster object transport double returns. -/
def clusterObjectResponse : PValue :=
  .vMsg "fulfillment.v1.ClustersGetResponse" [("object", clusterA)]

/-- A transport double answering every call with `object = clusterA`. -/
def clusterObjectTransport : Transport :=
  fun _ _ => .ok clusterObjectResponse

/-- Whether an accessor call returned without panicking. -/
def exceptOk {ε α : Type} : Except ε α → Bool
  | .ok _ => true
  | .error _ => false

/-! ## Shared lemmas -/

theorem lookup_filter_ne {β : Type} : ∀ (l : List (String × β)) (k k2 : String),
    k ≠ k2 → ((l.filter (fun p => p.1 ≠ k2)).lookup k) = l.lookup k := by
  intro l k k2 hne
  induction l with
  | nil => rfl
  | cons p t ih =>
    rcases p with ⟨pk, pv⟩
    rw [List.filter_cons]
    by_cases hp : pk = k2
    · have hcond : (decide ((pk, pv).1 ≠ k2)) = false := by simp [hp]
      rw [hcond]
      have hk2 : (k == pk) = false := by
        subst hp
        simpa using hne
      simp only [Bool.false_eq_true, if_false, List.lookup, hk2, ih]
    · have hcond : (decide ((pk, pv).1 ≠ k2)) = true := by simpa using hp
      rw [hcond]
      simp only [if_true, List.lookup]
      cases hkp : (k == pk) with
      | true => rfl
      | false => exact ih

theorem lookup_setField_self (m : PValue) (fd : FieldDescriptor) (v : PValue) :
    ((m.setField fd v).setFields).lookup fd.name = some v := by
  simp [PValue.setField, PValue.setFields, List.lookup]

theorem lookup_setField_ne (m : PValue) (fd : FieldDescriptor) (v : PValue)
    (k : String) (hk : k ≠ fd.name) :
    ((m.setField fd v).setFields).lookup k = m.setFields.lookup k := by
  have hbeq : (k == fd.name) = false := by simpa using hk
  simp only [PValue.setField, PValue.setFields, List.lookup, hbeq]
  exact lookup_filter_ne _ _ _ hk

theorem charsLt_asymm : ∀ a b : List Char, charsLt a b = true → charsLt b a = false := by
  intro a
  induction a with
  | nil => intro b; cases b <;> simp [charsLt]
  | cons x xs ih =>
    intro b
    cases b with
    | nil => simp [charsLt]
    | cons y ys =>
      simp only [charsLt]
      intro h
      by_cases hxy : x < y
      · have hyx : ¬ y < x := lt_asymm hxy
        simp [hyx, hxy]
      · simp only [hxy, if_false] at h
        by_cases hyx : y < x
        · simp [hyx] at h
        · simp only [hyx, if_false] at h
          simp [hxy, hyx, ih ys h]

theorem charsLt_trans : ∀ a b c : List Char,
    charsLt a b = true → charsLt b c = true → charsLt a c = true := by
  intro a
  induction a with
  | nil =>
    intro b c hab hbc
    cases c with
    | nil =>
      cases b with
      | nil => simp [charsLt] at hab
      | cons y ys => simp [charsLt] at hbc
    | cons z zs => simp [charsLt]
  | cons x xs ih =>
    intro b c hab hbc
    cases b with
    | nil => simp [charsLt] at hab
    | cons y ys =>
      cases c with
      | nil => simp [charsLt] at hbc
      | cons z zs =>
        simp only [charsLt] at hab hbc ⊢
        by_cases h1 : x < y
        · by_cases h2 : y < z
          · simp [lt_trans h1 h2]
          · simp only [h2, if_false] at hbc
            by_cases h3 : z < y
            · simp [h3] at hbc
            · have hyz : y = z := le_antisymm (le_of_not_lt h3) (le_of_not_lt h2)
              simp [hyz ▸ h1]
        · simp only [h1, if_false] at hab
          by_cases h4 : y < x
          · simp [h4] at hab
          · simp only [h4, if_false] at hab
            have hxy : x = y := le_antisymm (le_of_not_lt h4) (le_of_not_lt h1)
            subst hxy
            by_cases h2 : x < z
            · simp [h2]
            · simp only [h2, if_false] at hbc ⊢
              by_cases h3 : z < x
              · simp [h3] at hbc
              · simp only [h3, if_false] at hbc ⊢
                exact ih ys zs hab hbc

theorem charsLt_conn : ∀ a b : List Char,
    charsLt a b = false → charsLt b a = false → a = b := by
  intro a
  induction a with
  | nil =>
    intro b hab _
    cases b with
    | nil => rfl
    | cons y ys => simp [charsLt] at hab
  | cons x xs ih =>
    intro b hab hba
    cases b with
    | nil => simp [charsLt] at hba
    | cons y ys =>
      simp only [charsLt] at hab hba
      by_cases h1 : x < y
      · simp [h1] at hab
      · by_cases h2 : y < x
        · simp [h2] at hba
        · simp only [h1, h2, if_false] at hab hba
          have hxy : x = y := le_antisymm (le_of_not_lt h2) (le_of_not_lt h1)
          rw [hxy, ih ys hab hba]

theorem strLe_total (a b : String) : strLe a b = true ∨ strLe b a = true := by
  unfold strLe
  by_cases h : charsLt b.data a.data = true
  · right
    rw [charsLt_asymm _ _ h]
    rfl
  · left
    simp only [Bool.not_eq_true] at h
    rw [h]
    rfl

theorem strLe_trans (a b c : String) (hab : strLe a b = true) (hbc : strLe b c = true) :
    strLe a c = true := by
  unfold strLe at hab hbc ⊢
  simp only [Bool.not_eq_true'] at hab hbc ⊢
  by_cases hca : charsLt c.data a.data = true
  · by_cases hbcT : charsLt b.data c.data = true
    · have hba : charsLt b.data a.data = true := charsLt_trans _ _ _ hbcT hca
      rw [hba] at hab
      simp at hab
    · have hbceq : b.data = c.data :=
        charsLt_conn _ _ (by simpa using hbcT) hbc
      rw [← hbceq] at hca
      rw [hca] at hab
      simp at hab
  · simpa using hca

theorem helperLe_total (p : List (String × Int)) (a b : ObjectHelper) :
    helperLe p a b = true ∨ helperLe p b a = true := by
  unfold helperLe
  by_cases h : pkgOrder p (parentName a.descriptor.fullName)
      = pkgOrder p (parentName b.descriptor.fullName)
  · rw [h]
    simp only [ne_eq, not_true_eq_false, Bool.false_eq_true, if_false]
    exact strLe_total _ _
  · rcases lt_or_gt_of_ne h with hlt | hgt
    · left
      simp [h, hlt]
    · right
      simp [Ne.symm h, hgt]

theorem helperLe_trans (p : List (String × Int)) (a b c : ObjectHelper)
    (hab : helperLe p a b = true) (hbc : helperLe p b c = true) :
    helperLe p a c = true := by
  unfold helperLe at hab hbc ⊢
  dsimp only at hab hbc ⊢
  by_cases h1 : pkgOrder p (parentName a.descriptor.fullName)
      = pkgOrder p (parentName b.descriptor.fullName)
  · by_cases h2 : pkgOrder p (parentName b.descriptor.fullName)
        = pkgOrder p (parentName c.descriptor.fullName)
    · rw [h1] at hab
      rw [h2] at hbc
      rw [h1, h2]
      simp only [ne_eq, not_true_eq_false, Bool.false_eq_true, if_false] at hab hbc ⊢
      exact strLe_trans _ _ _ hab hbc
    · rw [h1]
      simp only [ne_eq, h2, not_false_eq_true, if_true] at hbc ⊢
      exact hbc
  · by_cases h2 : pkgOrder p (parentName b.descriptor.fullName)
        = pkgOrder p (parentName c.descriptor.fullName)
    · rw [← h2]
      simp only [ne_eq, h1, not_false_eq_true, if_true] at hab ⊢
      exact hab
    · simp only [ne_eq, h1, h2, not_false_eq_true, if_true, decide_eq_true_eq] at hab hbc
      have hac : pkgOrder p (parentName a.descriptor.fullName)
          < pkgOrder p (parentName c.descriptor.fullName) := lt_trans hab hbc
      simp [ne_of_lt hac, hac]

instance (p : List (String × Int)) : IsTotal ObjectHelper (helperRel p) :=
  ⟨fun a b => helperLe_total p a b⟩

instance (p : List (String × Int)) : IsTrans ObjectHelper (helperRel p) :=
  ⟨fun a b c => helperLe_trans p a b c⟩

/-- Unfolding the sorted-order relation into the claim's terms: smaller
package order first, ties broken by full name. -/
theorem helperLe_elim (p : List (String × Int)) (a b : ObjectHelper)
    (h : helperLe p a b = true) :
    pkgOrder p (parentName a.descriptor.fullName)
        < pkgOrder p (parentName b.descriptor.fullName)
      ∨ (pkgOrder p (parentName a.descriptor.fullName)
            = pkgOrder p (parentName b.descriptor.fullName)
          ∧ strLe a.descriptor.fullName b.descriptor.fullName = true) := by
  unfold helperLe at h
  by_cases heq : pkgOrder p (parentName a.descriptor.fullName)
      = pkgOrder p (parentName b.descriptor.fullName)
  · right
    refine ⟨heq, ?_⟩
    simpa [ne_eq, heq] using h
  · left
    simpa [ne_eq, heq] using h

/-- The ordering the spec claims for each pair of registry entries: smaller
caller-supplied package order first, ties broken by full name. -/
def orderedByPackageThenName (packages : List (String × Int)) (a b : ObjectHelper) : Prop :=
  pkgOrder packages (parentName a.descriptor.fullName)
      < pkgOrder packages (parentName b.descriptor.fullName)
    ∨ (pkgOrder packages (parentName a.descriptor.fullName)
          = pkgOrder packages (parentName b.descriptor.fullName)
        ∧ strLe a.descriptor.fullName b.descriptor.fullName = true)

/-- No `fulfillment.v1` entry precedes a `private.v1` entry. -/
def noFulfillmentBeforePrivate (a b : ObjectHelper) : Prop :=
  ¬(parentName a.descriptor.fullName = "fulfillment.v1"
    ∧ parentName b.descriptor.fullName = "private.v1")

/-- Entries of the same package appear in name order. -/
def alphabeticalWithinPackage (a b : ObjectHelper) : Prop :=
  parentName a.descriptor.fullName = parentName b.descriptor.fullName
    → strLe a.descriptor.fullName b.descriptor.fullName = true

/-! ## Claim theorems -/

/-- C1.  The scanner produces exactly one Object Descriptor for a service
satisfying the five-method shape convention and none for a service missing a
method; but a service missing the get response's `object` field does not
yield "no descriptor" as claimed — the scan panics on a nil field-descriptor
dereference, the code slip documented in the claim's source region. -/
theorem c1_scan_shape_contract :
    Helper.scanService clustersService = .ok (some clusterHelper) ∧
    Helper.scanService noUpdateService = .ok none ∧
    Helper.scanService gadgetsService = .error .nilDereference :=
  ⟨rfl, rfl, rfl⟩

/-- C2.  A shape violation in any guarded rule (here: the list filter rule)
silently disqualifies the service, but the specific shape named by the claim
— all five methods, valid get request `id`, get response whose `object`
field violates the object rule — makes the scan panic instead of skipping
the service silently. -/
theorem c2_scan_panic_on_invalid_object :
    Helper.scanService badFilterService = .ok none ∧
    Helper.scanService sprocketsService = .error .nilDereference :=
  ⟨rfl, rfl⟩

/-- C3 counterexample.  When the transport signals not-found, `Get` returns
the transport status error itself — not a value of the typed `NotFoundError`
the claim postulates — and `Delete` behaves the same way. -/
theorem c3_not_found_not_typed :
    (clusterHelper.Get notFoundTransport "c1").error
      = some (.transport ⟨.notFound, "object not found"⟩) ∧
    ((clusterHelper.Get notFoundTransport "c1").error.map CliError.isNotFoundError)
      = some false ∧
    (clusterHelper.Delete notFoundTransport "c1").error
      = some (.transport ⟨.notFound, "object not found"⟩) :=
  ⟨rfl, rfl, rfl⟩

/-- C3 (amended).  `Get` surfaces every transport error unchanged — including
a not-found status, which is never rewrapped into a typed `NotFoundError` —
and a failed `Get` returns a nil object; the not-found condition stays
distinguishable only through the status code carried by the transport error.
`Delete` likewise returns the transport error unchanged. -/
theorem c3_error_surfaced_unchanged (h : ObjectHelper) (t u : Transport) (id : String)
    (e eDel : TransportError)
    (hget : t h.get.path (h.setId h.get.request h.get.id id) = .error e)
    (hdel : u h.delete.path (h.setId h.delete.request h.delete.id id) = .error eDel) :
    (h.Get t id).error = some (.transport e) ∧
    (h.Get t id).value = none ∧
    ((h.Get t id).error.map CliError.isNotFoundError) = some false ∧
    ((h.Get t id).error.bind CliError.statusCode) = some e.code ∧
    (h.Delete u id).error = some (.transport eDel) ∧
    ((h.Delete u id).error.bind CliError.statusCode) = some eDel.code := by
  refine ⟨?_, ?_, ?_, ?_, ?_, ?_⟩ <;>
    simp [ObjectHelper.Get, ObjectHelper.Delete, hget, hdel,
      CliError.isNotFoundError, CliError.statusCode]

/-- C3 witness: the amended statement evaluated on the scanned cluster helper
against a transport double failing with an Unavailable status. -/
theorem c3_error_surfaced_unchanged_witness :
    (clusterHelper.Get unavailableTransport "x").error
      = some (.transport ⟨.unavailable, "connection refused"⟩) ∧
    (clusterHelper.Get unavailableTransport "x").value = none ∧
    ((clusterHelper.Get unavailableTransport "x").error.map CliError.isNotFoundError)
      = some false ∧
    ((clusterHelper.Get unavailableTransport "x").error.bind CliError.statusCode)
      = some StatusCode.unavailable ∧
    (clusterHelper.Delete unavailableTransport "x").error
      = some (.transport ⟨.unavailable, "connection refused"⟩) ∧
    ((clusterHelper.Delete unavailableTransport "x").error.bind CliError.statusCode)
      = some StatusCode.unavailable :=
  c3_error_surfaced_unchanged clusterHelper unavailableTransport unavailableTransport "x"
    ⟨.unavailable, "connection refused"⟩ ⟨.unavailable, "connection refused"⟩ rfl rfl

/-- C4.  For every successful `List` call: exactly one RPC is issued; the
filter field is set on the request precisely when the given filter is
non-empty; the limit field precisely when the given limit is positive and
the type has a limit field; `Items` is the response's `items` list
materialized; and `Total` is the server-reported total when the type has a
total field, `len(Items)` otherwise. -/
theorem c4_list_correct (h : ObjectHelper) (t : Transport) (options : ListOptions)
    (resp : PValue)
    (hfname : h.list.filter.name = "filter")
    (hlname : ∀ fd, h.list.limit = some fd → fd.name = "limit")
    (hreq : h.list.request.setFields = [])
    (ht : t h.list.path (h.listRequest options) = .ok resp) :
    (h.List t options).error = none ∧
    (h.List t options).calls = [⟨h.list.path, h.listRequest options⟩] ∧
    ((h.listRequest options).setFields.lookup "filter").isSome = (options.Filter != "") ∧
    ((h.listRequest options).setFields.lookup "limit").isSome
      = (decide (0 < options.Limit) && h.list.limit.isSome) ∧
    (h.List t options).value.Items = (resp.getField h.list.items).listElems ∧
    (h.List t options).value.Total =
      (match h.list.total with
        | some totalFd => (resp.getField totalFd).asInt
        | none => (((resp.getField h.list.items).listElems).length : Int)) := by
  have hfl : ((h.listRequest options).setFields.lookup "filter").isSome
      = (options.Filter != "") := by
    unfold ObjectHelper.listRequest
    by_cases hf : options.Filter = ""
    · simp only [hf, ne_eq, not_true_eq_false, if_false, bne_self_eq_false]
      cases hlim : h.list.limit with
      | none => simp [hreq]
      | some lfd =>
        by_cases hpos : options.Limit > 0
        · simp only [hpos, if_true]
          rw [lookup_setField_ne]
          · simp [hreq]
          · rw [hlname lfd hlim]
            decide
        · simp [hpos, hreq]
    · have hfne : (options.Filter != "") = true := by simpa using hf
      simp only [hf, ne_eq, not_false_eq_true, if_true, hfne]
      cases hlim : h.list.limit with
      | none =>
        rw [← hfname, lookup_setField_self]
        rfl
      | some lfd =>
        by_cases hpos : options.Limit > 0
        · simp only [hpos, if_true]
          rw [lookup_setField_ne]
          · rw [← hfname, lookup_setField_self]
            rfl
          · rw [hlname lfd hlim]
            decide
        · simp only [hpos, if_false]
          rw [← hfname, lookup_setField_self]
          rfl
  have hli : ((h.listRequest options).setFields.lookup "limit").isSome
      = (decide (0 < options.Limit) && h.list.limit.isSome) := by
    unfold ObjectHelper.listRequest
    cases hlim : h.list.limit with
    | none =>
      by_cases hf : options.Filter = ""
      · simp [hf, hreq]
      · simp only [hf, ne_eq, not_false_eq_true, if_true, Option.isSome_none, Bool.and_false]
        rw [lookup_setField_ne]
        · simp [hreq]
        · rw [hfname]
          decide
    | some lfd =>
      by_cases hpos : options.Limit > 0
      · have hdec : decide (0 < options.Limit) = true := by simpa using hpos
        simp only [hpos, if_true, hdec, Option.isSome_some, Bool.and_true]
        rw [← hlname lfd hlim, lookup_setField_self]
        simp
      · have hdec : decide (0 < options.Limit) = false := by simpa using hpos
        simp only [hpos, if_false, hdec, Bool.false_and]
        by_cases hf : options.Filter = ""
        · simp [hf, hreq]
        · simp only [hf, ne_eq, not_false_eq_true, if_true]
          rw [lookup_setField_ne]
          · simp [hreq]
          · rw [hfname]
            decide
  refine ⟨?_, ?_, hfl, hli, ?_, ?_⟩
  · simp [ObjectHelper.List, ht]
  · simp [ObjectHelper.List, ht]
  · simp [ObjectHelper.List, ht]
  · cases htot : h.list.total <;> simp [ObjectHelper.List, ht, htot]

/-- C4 witness: a list call with no filter and no limit against a double
returning `items=[A,B], total=2` round-trips with `Total = 2`. -/
theorem c4_list_correct_witness :
    (clusterHelper.List clusterListTransport ⟨"", 0⟩).error = none ∧
    (clusterHelper.List clusterListTransport ⟨"", 0⟩).calls
      = [⟨clusterHelper.list.path, clusterHelper.listRequest ⟨"", 0⟩⟩] ∧
    ((clusterHelper.listRequest ⟨"", 0⟩).setFields.lookup "filter").isSome = ("" != "") ∧
    ((clusterHelper.listRequest ⟨"", 0⟩).setFields.lookup "limit").isSome
      = (decide ((0 : Int) < 0) && clusterHelper.list.limit.isSome) ∧
    (clusterHelper.List clusterListTransport ⟨"", 0⟩).value.Items
      = (clusterListResponse.getField clusterHelper.list.items).listElems ∧
    (clusterHelper.List clusterListTransport ⟨"", 0⟩).value.Total = 2 :=
  c4_list_correct clusterHelper clusterListTransport ⟨"", 0⟩ clusterListResponse
    rfl (fun fd hfd => by cases hfd; rfl) rfl rfl

/-- C5 counterexample.  With both packages scanned, `fulfillment.v1.Cluster`
is registered, yet `Lookup("CLUSTER")`, `Lookup("cluster")` and
`Lookup("clusters")` resolve to `private.v1.Cluster` — the first helper in
scan order sharing the alias — while `Lookup("fulfillment.v1.Cluster")`
resolves to `fulfillment.v1.Cluster`; the four tokens do not all resolve to
the same descriptor. -/
theorem c5_lookup_collision :
    (Helper.Names demoRegistry).contains "fulfillment.v1.Cluster" = true ∧
    (Helper.Lookup demoRegistry "fulfillment.v1.Cluster").map (fun hh => hh.descriptor.fullName)
      = some "fulfillment.v1.Cluster" ∧
    (Helper.Lookup demoRegistry "CLUSTER").map (fun hh => hh.descriptor.fullName)
      = some "private.v1.Cluster" ∧
    (Helper.Lookup demoRegistry "cluster").map (fun hh => hh.descriptor.fullName)
      = some "private.v1.Cluster" ∧
    (Helper.Lookup demoRegistry "clusters").map (fun hh => hh.descriptor.fullName)
      = some "private.v1.Cluster" :=
  ⟨by decide, by decide, by decide, by decide, by decide⟩

/-- C5 (amended).  `Lookup` resolves a token against the exact full name or
the case-insensitive singular/plural alias, returning the first match in
scan order and none when no registered type matches; the four cluster tokens
resolve to the same descriptor when `fulfillment.v1.Cluster` is registered
and no other registered type shares its aliases (here: only the
`fulfillment.v1` package scanned). -/
theorem c5_lookup_resolution (helpers : List ObjectHelper) (token : String) :
    (Helper.Lookup helpers token = none
        ↔ ∀ oi ∈ helpers, lookupMatches token oi = false) ∧
    (∀ oi, Helper.Lookup helpers token = some oi →
        lookupMatches token oi = true ∧
        ∃ pre post, helpers = pre ++ oi :: post
          ∧ ∀ x ∈ pre, lookupMatches token x = false) ∧
    Helper.Lookup fulfillmentRegistry "CLUSTER"
      = Helper.Lookup fulfillmentRegistry "fulfillment.v1.Cluster" ∧
    Helper.Lookup fulfillmentRegistry "cluster"
      = Helper.Lookup fulfillmentRegistry "fulfillment.v1.Cluster" ∧
    Helper.Lookup fulfillmentRegistry "clusters"
      = Helper.Lookup fulfillmentRegistry "fulfillment.v1.Cluster" ∧
    (Helper.Lookup fulfillmentRegistry "fulfillment.v1.Cluster").map
        (fun hh => hh.descriptor.fullName)
      = some "fulfillment.v1.Cluster" := by
  refine ⟨?_, ?_, rfl, rfl, rfl, by decide⟩
  · unfold Helper.Lookup
    rw [List.find?_eq_none]
    constructor
    · intro hall oi hmem
      have := hall oi hmem
      simpa using this
    · intro hall oi hmem
      simp [hall oi hmem]
  · intro oi hfind
    unfold Helper.Lookup at hfind
    rw [List.find?_eq_some] at hfind
    obtain ⟨hmatch, pre, post, heq, hpre⟩ := hfind
    refine ⟨hmatch, pre, post, heq, ?_⟩
    intro x hx
    have := hpre x hx
    simpa using this

/-- C6.  The registry order produced by the scan is deterministic: every
pair of entries is ordered by the caller-supplied package order with ties
broken by full name; with orders `{private.v1 ↦ 0, fulfillment.v1 ↦ 1}` no
`fulfillment.v1` entry precedes a `private.v1` entry, and entries of one
package are alphabetically ordered. -/
theorem c6_registry_order (packages : List (String × Int)) (files : List FileDescriptor)
    (helpers : List ObjectHelper)
    (hscan : Helper.scan packages files = .ok helpers)
    (hpriv : pkgOrder packages "private.v1" = 0)
    (hful : pkgOrder packages "fulfillment.v1" = 1) :
    helpers.Pairwise (orderedByPackageThenName packages) ∧
    helpers.Pairwise noFulfillmentBeforePrivate ∧
    helpers.Pairwise alphabeticalWithinPackage := by
  unfold Helper.scan at hscan
  have hp : helpers.Pairwise (helperRel packages) := by
    cases hm : files.mapM (Helper.scanFile packages) with
    | error e =>
      rw [hm] at hscan
      cases hscan
    | ok fileResults =>
      rw [hm] at hscan
      have hsorted := List.sorted_insertionSort (helperRel packages) fileResults.flatten
      have hinj : List.insertionSort (helperRel packages) fileResults.flatten = helpers := by
        injection hscan
      rw [hinj] at hsorted
      exact hsorted
  refine ⟨?_, ?_, ?_⟩
  · exact hp.imp (fun hr => helperLe_elim packages _ _ hr)
  · refine hp.imp ?_
    intro a b hr hcon
    rcases helperLe_elim packages a b hr with hlt | ⟨heq, _⟩
    · rw [hcon.1, hcon.2, hful, hpriv] at hlt
      omega
    · rw [hcon.1, hcon.2, hful, hpriv] at heq
      omega
  · refine hp.imp ?_
    intro a b hr hpar
    rcases helperLe_elim packages a b hr with hlt | ⟨_, hle⟩
    · rw [hpar] at hlt
      exact absurd hlt (lt_irrefl _)
    · exact hle

/-- C6 witness: the demo catalog with orders `{private.v1 ↦ 0,
fulfillment.v1 ↦ 1}` satisfies all three ordering properties. -/
theorem c6_registry_order_witness :
    demoRegistry.Pairwise (orderedByPackageThenName demoPackages) ∧
    demoRegistry.Pairwise noFulfillmentBeforePrivate ∧
    demoRegistry.Pairwise alphabeticalWithinPackage :=
  c6_registry_order demoPackages demoFiles demoRegistry rfl rfl rfl

/-- C7.  Every Get/List/Create/Update/Delete invocation issues exactly one
RPC on the bound transport and leaves the object helper's state — templates,
field descriptors, aliases — unchanged: each operates only on fresh clones
of the templates. -/
theorem c7_one_rpc_no_mutation (h : ObjectHelper) (t : Transport) (id : String)
    (options : ListOptions) (object : PValue) :
    (h.Get t id).calls.length = 1 ∧ (h.Get t id).helperAfter = h ∧
    (h.List t options).calls.length = 1 ∧ (h.List t options).helperAfter = h ∧
    (h.Create t object).calls.length = 1 ∧ (h.Create t object).helperAfter = h ∧
    (h.Update t object).calls.length = 1 ∧ (h.Update t object).helperAfter = h ∧
    (h.Delete t id).calls.length = 1 ∧ (h.Delete t id).helperAfter = h := by
  refine ⟨?_, ?_, ?_, ?_, ?_, ?_, ?_, ?_, ?_, ?_⟩
  · cases ht : t h.get.path (h.setId h.get.request h.get.id id) <;> simp [ObjectHelper.Get, ht]
  · cases ht : t h.get.path (h.setId h.get.request h.get.id id) <;> simp [ObjectHelper.Get, ht]
  · cases ht : t h.list.path (h.listRequest options) <;> simp [ObjectHelper.List, ht]
  · cases ht : t h.list.path (h.listRequest options) <;> simp [ObjectHelper.List, ht]
  · cases ht : t h.create.path (h.setObject h.create.request h.create.inF object) <;>
      simp [ObjectHelper.Create, ht]
  · cases ht : t h.create.path (h.setObject h.create.request h.create.inF object) <;>
      simp [ObjectHelper.Create, ht]
  · cases ht : t h.update.path (h.setObject h.update.request h.update.inF object) <;>
      simp [ObjectHelper.Update, ht]
  · cases ht : t h.update.path (h.setObject h.update.request h.update.inF object) <;>
      simp [ObjectHelper.Update, ht]
  · cases ht : t h.delete.path (h.setId h.delete.request h.delete.id id) <;>
      simp [ObjectHelper.Delete, ht]
  · cases ht : t h.delete.path (h.setId h.delete.request h.delete.id id) <;>
      simp [ObjectHelper.Delete, ht]

/-- C8.  A transport error during `Create` or `Update` reaches the caller
wrapped with the operation-specific message — "failed to create object" vs
"failed to update object" — around the unchanged transport error, with no
further classification; on success the returned object is the response's
`object` field. -/
theorem c8_error_wrapping (h : ObjectHelper) (tc tu tco tuo : Transport)
    (object respC respU : PValue) (e eU : TransportError)
    (hc : tc h.create.path (h.setObject h.create.request h.create.inF object) = .error e)
    (hu : tu h.update.path (h.setObject h.update.request h.update.inF object) = .error eU)
    (hco : tco h.create.path (h.setObject h.create.request h.create.inF object) = .ok respC)
    (huo : tuo h.update.path (h.setObject h.update.request h.update.inF object) = .ok respU) :
    (h.Create tc object).error = some (.wrap "failed to create object" (.transport e)) ∧
    (h.Update tu object).error = some (.wrap "failed to update object" (.transport eU)) ∧
    (h.Create tco object).error = none ∧
    (h.Create tco object).value = some (h.getObject respC h.create.out) ∧
    (h.Update tuo object).error = none ∧
    (h.Update tuo object).value = some (h.getObject respU h.update.out) := by
  refine ⟨?_, ?_, ?_, ?_, ?_, ?_⟩ <;>
    simp [ObjectHelper.Create, ObjectHelper.Update, hc, hu, hco, huo]

/-- C8 witness: the wrapping evaluated on the scanned cluster helper against
a failing and a succeeding transport double. -/
theorem c8_error_wrapping_witness :
    (clusterHelper.Create unavailableTransport clusterA).error
      = some (.wrap "failed to create object"
          (.transport ⟨.unavailable, "connection refused"⟩)) ∧
    (clusterHelper.Update unavailableTransport clusterA).error
      = some (.wrap "failed to update object"
          (.transport ⟨.unavailable, "connection refused"⟩)) ∧
    (clusterHelper.Create clusterObjectTransport clusterA).error = none ∧
    (clusterHelper.Create clusterObjectTransport clusterA).value
      = some (clusterHelper.getObject clusterObjectResponse clusterHelper.create.out) ∧
    (clusterHelper.Update clusterObjectTransport clusterA).error = none ∧
    (clusterHelper.Update clusterObjectTransport clusterA).value
      = some (clusterHelper.getObject clusterObjectResponse clusterHelper.update.out) :=
  c8_error_wrapping clusterHelper unavailableTransport unavailableTransport
    clusterObjectTransport clusterObjectTransport clusterA
    clusterObjectResponse clusterObjectResponse
    ⟨.unavailable, "connection refused"⟩ ⟨.unavailable, "connection refused"⟩
    rfl rfl rfl rfl

/-- C9 counterexample.  A conforming service whose managed type has neither
an `id` nor a `metadata` field still yields an Object Descriptor; the
recorded field locations are nil and `GetId`, `GetMetadata` and `GetName`
panic on every instance. -/
theorem c9_missing_fields_panic :
    Helper.scanService widgetsService = .ok (some widgetHelper) ∧
    widgetHelper.idField = none ∧
    widgetHelper.metadataField = none ∧
    widgetHelper.GetId someWidget = .error .nilField ∧
    widgetHelper.GetMetadata someWidget = .error .nilField ∧
    widgetHelper.GetName someWidget = .error .nilField :=
  ⟨rfl, rfl, rfl, rfl, rfl, rfl⟩

/-- C9 (amended).  For every Object Descriptor the scanner produces, the
`id` and `metadata` field locations recorded at scan time are exactly the
managed type's `id` and `metadata` fields when those exist (and nil when
they do not, without disqualifying the type); `GetId`, `GetMetadata` and
`GetName` succeed on an instance precisely when the corresponding field
location was recorded, and panic otherwise. -/
theorem c9_accessors_by_recorded_fields (svc : ServiceDescriptor) (h : ObjectHelper)
    (hscan : Helper.scanService svc = .ok (some h)) (object : PValue) :
    h.idField = h.descriptor.fieldByName "id" ∧
    h.metadataField = h.descriptor.fieldByName "metadata" ∧
    exceptOk (h.GetId object) = h.idField.isSome ∧
    exceptOk (h.GetMetadata object) = h.metadataField.isSome ∧
    exceptOk (h.GetName object) = h.metadataField.isSome := by
  have hacc1 : exceptOk (h.GetId object) = h.idField.isSome := by
    cases hid : h.idField <;> simp [ObjectHelper.GetId, hid, exceptOk]
  have hacc2 : exceptOk (h.GetMetadata object) = h.metadataField.isSome := by
    cases hmd : h.metadataField <;> simp [ObjectHelper.GetMetadata, hmd, exceptOk]
  have hacc3 : exceptOk (h.GetName object) = h.metadataField.isSome := by
    cases hmd : h.metadataField <;>
      simp [ObjectHelper.GetName, ObjectHelper.GetMetadata, hmd, exceptOk]
  have hrec : h.idField = h.descriptor.fieldByName "id"
      ∧ h.metadataField = h.descriptor.fieldByName "metadata" := by
    unfold Helper.scanService at hscan
    repeat' split at hscan
    all_goals try (exfalso; simp at hscan; done)
    injection hscan with h1
    injection h1 with h2
    subst h2
    exact ⟨rfl, rfl⟩
  exact ⟨hrec.1, hrec.2, hacc1, hacc2, hacc3⟩

/-- C9 witness: the amended statement evaluated on the scanned cluster
helper, whose managed type does define `id` and `metadata`. -/
theorem c9_accessors_by_recorded_fields_witness :
    clusterHelper.idField = clusterHelper.descriptor.fieldByName "id" ∧
    clusterHelper.metadataField = clusterHelper.descriptor.fieldByName "metadata" ∧
    exceptOk (clusterHelper.GetId clusterA) = clusterHelper.idField.isSome ∧
    exceptOk (clusterHelper.GetMetadata clusterA) = clusterHelper.metadataField.isSome ∧
    exceptOk (clusterHelper.GetName clusterA) = clusterHelper.metadataField.isSome :=
  c9_accessors_by_recorded_fields clustersService clusterHelper rfl clusterA

/-- C10.  When the transport call fails, `Create` and `Update` still extract
the `object` field from the untouched empty response clone: the caller
receives, alongside the wrapped error, a non-nil zero-valued message of the
managed type, so failure cannot be detected by checking the result for nil. -/
theorem c10_result_nonnil_on_failure (h : ObjectHelper) (tc tu : Transport)
    (object : PValue) (e eU : TransportError) (mdC mdU : MessageDescriptor)
    (nC nU : String)
    (hc : tc h.create.path (h.setObject h.create.request h.create.inF object) = .error e)
    (hu : tu h.update.path (h.setObject h.update.request h.update.inF object) = .error eU)
    (hcout : h.create.out = .mk nC .optionalC (.messageK mdC))
    (huout : h.update.out = .mk nU .optionalC (.messageK mdU))
    (hcresp : h.create.response.setFields.lookup nC = none)
    (huresp : h.update.response.setFields.lookup nU = none)
    (hcn : mdC.fullName = h.descriptor.fullName)
    (hun : mdU.fullName = h.descriptor.fullName) :
    (h.Create tc object).value = some (.vMsg h.descriptor.fullName []) ∧
    (h.Create tc object).error.isSome = true ∧
    (h.Update tu object).value = some (.vMsg h.descriptor.fullName []) ∧
    (h.Update tu object).error.isSome = true := by
  refine ⟨?_, ?_, ?_, ?_⟩
  · simp [ObjectHelper.Create, hc, ObjectHelper.getObject, PValue.getField, hcout,
      FieldDescriptor.name, hcresp, FieldDescriptor.defaultValue,
      FieldDescriptor.cardinality, FieldDescriptor.kind, hcn]
  · simp [ObjectHelper.Create, hc]
  · simp [ObjectHelper.Update, hu, ObjectHelper.getObject, PValue.getField, huout,
      FieldDescriptor.name, huresp, FieldDescriptor.defaultValue,
      FieldDescriptor.cardinality, FieldDescriptor.kind, hun]
  · simp [ObjectHelper.Update, hu]

/-- C10 witness: a failing create and update on the scanned cluster helper
both return the empty cluster message alongside the wrapped error. -/
theorem c10_result_nonnil_on_failure_witness :
    (clusterHelper.Create unavailableTransport clusterA).value
      = some (.vMsg clusterHelper.descriptor.fullName []) ∧
    (clusterHelper.Create unavailableTransport clusterA).error.isSome = true ∧
    (clusterHelper.Update unavailableTransport clusterA).value
      = some (.vMsg clusterHelper.descriptor.fullName []) ∧
    (clusterHelper.Update unavailableTransport clusterA).error.isSome = true :=
  c10_result_nonnil_on_failure clusterHelper unavailableTransport unavailableTransport
    clusterA ⟨.unavailable, "connection refused"⟩ ⟨.unavailable, "connection refused"⟩
    clusterDesc clusterDesc "object" "object" rfl rfl rfl rfl rfl rfl rfl rfl

end FulfillmentCli
